import Mathlib

/-!
Verification development for the RTM-to-Nextcloud task converter
(`rtm_to_nextcloud.py` and `rtm_to_nextcloud_tui.py`).

The Python sources are shallowly embedded below:

* Optional record fields become `Option` values (`none` = key absent).
  Python truthiness tests (`if task.get(...)`) are embedded by explicit
  truthiness helpers (`truthyInt`, `truthyStr`, ...).
* `datetime.fromtimestamp(ms / 1000.0)` is embedded by exact integer
  arithmetic: floor division of the millisecond count by 1000 plus a fixed
  local-timezone offset `tz` (in seconds), followed by the standard
  days-to-civil-date conversion.  The local timezone is modelled as a fixed
  offset parameter threaded through every function that converts times.
  Python restricts `datetime` years to 1..9999 and raises otherwise; the
  embedding returns `Except.error` in exactly that case.
* `strftime` zero-pads month/day/hour/minute/second to two digits and
  prints the year with no padding (glibc behaviour), which the embedding
  mirrors with `natDigits`/`pad2c`.
* Fatal exceptions propagate as `Except String`.
-/

namespace RTM

/-- One character-by-character replacement pass, the embedding of Python
`str.replace` with a single-character pattern. -/
def replace1 (p : Char) (r : List Char) : List Char → List Char
  | [] => []
  | c :: cs => if c = p then r ++ replace1 p r cs else c :: replace1 p r cs

/-- The four sequential replacement passes of `escape_ical_text`:
backslash, comma, semicolon, newline (in that order). -/
def escape_chars (l : List Char) : List Char :=
  replace1 ('\n') ([ '\\', 'n' ])
    (replace1 (';') ([ '\\', ';' ])
      (replace1 (',') ([ '\\', ',' ])
        (replace1 ('\\') ([ '\\', '\\' ]) l)))

/-- Embedding of `escape_ical_text` (rtm_to_nextcloud.py lines 16-25):
empty/absent input maps to the empty string, otherwise the four
replacement passes run left to right over the text. -/
def escape_ical_text (s : String) : String :=
  if s = ("") then ("") else String.mk (escape_chars s.data)

/-- Fuel-driven digit accumulator; `fuel ≥ n` always suffices, and the
fuel-exhausted branch is unreachable from `natDigits`. -/
def natDigitsGo : Nat → Nat → List Char
  | 0, n => [Nat.digitChar n]
  | fuel + 1, n =>
    if n < 10 then [Nat.digitChar n]
    else natDigitsGo fuel (n / 10) ++ [Nat.digitChar (n % 10)]

/-- Decimal digit list of a natural number, most significant first; the
digit rendering used by `strftime` (no leading zeroes). -/
def natDigits (n : Nat) : List Char := natDigitsGo n n

/-- Two-digit zero-padded rendering (`%m`, `%d`, `%H`, `%M`, `%S`). -/
def pad2c (n : Nat) : List Char :=
  if n < 10 then ('0') :: natDigits n else natDigits n

/-- Civil date (year, month, day) of a day count relative to 1970-01-01,
the standard proleptic-Gregorian conversion used by `localtime`. -/
def civilFromDays (z0 : Int) : Int × Int × Int :=
  let z := z0 + 719468
  let doe := z % 146097
  let era := z / 146097
  let yoe := (doe - doe / 1460 + doe / 36524 - doe / 146096) / 365
  let y := yoe + era * 400
  let doy := doe - (365 * yoe + yoe / 4 - yoe / 100)
  let mp := (5 * doy + 2) / 153
  let d := doy - (153 * mp + 2) / 5 + 1
  let m := if mp < 10 then mp + 3 else mp - 9
  (if m ≤ 2 then y + 1 else y, m, d)

/-- Local civil year of an epoch-millisecond instant under the fixed
local-timezone offset `tz` (seconds east of UTC). -/
def localYear (tz ms : Int) : Int :=
  (civilFromDays ((ms / 1000 + tz) / 86400)).1

/-- Embedding of `format_datetime` (rtm_to_nextcloud.py lines 28-40).
Zero (Python falsy) input yields `none`; a timestamp whose local civil
year falls outside `datetime`'s 1..9999 range raises, which the embedding
returns as `Except.error`; otherwise the result is `YYYYMMDDTHHMMSS`
(`has_time = true`) or `YYYYMMDD` (`has_time = false`) in local time. -/
def format_datetime (tz : Int) (timestamp_ms : Int) (has_time : Bool) : Except String (Option String) :=
  if timestamp_ms = 0 then Except.ok none
  else
    let ls := timestamp_ms / 1000 + tz
    let sod := ls % 86400
    let c := civilFromDays (ls / 86400)
    if c.1 < 1 ∨ 9999 < c.1 then Except.error ("year out of range")
    else
      Except.ok (some (String.mk
        (natDigits c.1.toNat ++ pad2c c.2.1.toNat ++ pad2c c.2.2.toNat ++
          (if has_time then
            ('T') :: (pad2c (sod / 3600).toNat ++ pad2c ((sod % 3600) / 60).toNat ++ pad2c (sod % 60).toNat)
          else []))))

/-- Embedding of `convert_priority` (rtm_to_nextcloud.py lines 43-52). -/
def convert_priority (rtm_priority : String) : Nat :=
  if rtm_priority = ("P1") then 1
  else if rtm_priority = ("P2") then 5
  else if rtm_priority = ("P3") then 9
  else 0

/-- Embedding of `convert_recurrence` (rtm_to_nextcloud.py lines 55-62):
identity pass-through, `none` for falsy input. -/
def convert_recurrence (rtm_repeat : String) : Option String :=
  if rtm_repeat = ("") then none else some rtm_repeat

/-- A note record as consumed by the converter: only its `content` field
is read (`note.get('content', '')`). -/
structure Note where
  content : Option String := none
deriving Repr, DecidableEq

/-- A task record of the RTM export, fields optional unless required by
the code (`task['id']` is accessed unconditionally).  `repeat_rule`
embeds the export's `repeat` field. -/
structure Task where
  id : String
  parent_id : Option String := none
  series_id : Option String := none
  list_id : Option String := none
  name : Option String := none
  priority : Option String := none
  date_due : Option Int := none
  date_start : Option Int := none
  date_completed : Option Int := none
  date_created : Option Int := none
  date_modified : Option Int := none
  date_due_has_time : Option Bool := none
  date_start_has_time : Option Bool := none
  repeat_rule : Option String := none
  url : Option String := none
  tags : List String := []
  postponed : Option Int := none
  source : Option String := none
deriving Repr, DecidableEq

/-- Python truthiness of an optional integer field. -/
def truthyInt : Option Int → Bool
  | some v => v != 0
  | none => false

/-- Python truthiness of an optional string field. -/
def truthyStr : Option String → Bool
  | some s => !s.isEmpty
  | none => false

/-- Python truthiness of an optional string-list field. -/
def truthyStrList : Option (List String) → Bool
  | some l => !l.isEmpty
  | none => false

/-- First-match association-list lookup, the embedding of a Python `dict`
built by insertion (`lists`, `notes_by_series`). -/
def lookupA {α : Type} : List (String × α) → String → Option α
  | [], _ => none
  | (k, v) :: rest, key => if k = key then some v else lookupA rest key

/-- The record-level granularity decision of `convert_task_to_vtodo`
(rtm_to_nextcloud.py lines 92-94): if either per-date has-time flag is
truthy, both due and start render with time-of-day. -/
def use_time (task : Task) : Bool :=
  task.date_due_has_time.getD false || task.date_start_has_time.getD false

/-- DUE lines of the block (rtm_to_nextcloud.py lines 96-103). -/
def due_lines (tz : Int) (task : Task) : Except String (List String) :=
  match task.date_due with
  | none => Except.ok []
  | some v =>
    if v = 0 then Except.ok []
    else
      match format_datetime tz v (use_time task) with
      | Except.error e => Except.error e
      | Except.ok none => Except.ok []
      | Except.ok (some s) =>
        Except.ok (if s = ("") then []
          else [if use_time task then ("DUE:") ++ s else ("DUE;VALUE=DATE:") ++ s])

/-- DTSTART lines of the block (rtm_to_nextcloud.py lines 105-112). -/
def start_lines (tz : Int) (task : Task) : Except String (List String) :=
  match task.date_start with
  | none => Except.ok []
  | some v =>
    if v = 0 then Except.ok []
    else
      match format_datetime tz v (use_time task) with
      | Except.error e => Except.error e
      | Except.ok none => Except.ok []
      | Except.ok (some s) =>
        Except.ok (if s = ("") then []
          else [if use_time task then ("DTSTART:") ++ s else ("DTSTART;VALUE=DATE:") ++ s])

/-- STATUS and COMPLETED lines (rtm_to_nextcloud.py lines 114-121): the
completion timestamp is always rendered with `has_time = true`. -/
def status_lines (tz : Int) (task : Task) : Except String (List String) :=
  match task.date_completed with
  | none => Except.ok [("STATUS:NEEDS-ACTION")]
  | some v =>
    if v = 0 then Except.ok [("STATUS:NEEDS-ACTION")]
    else
      match format_datetime tz v true with
      | Except.error e => Except.error e
      | Except.ok none => Except.ok [("STATUS:COMPLETED")]
      | Except.ok (some s) =>
        Except.ok (("STATUS:COMPLETED") :: (if s = ("") then [] else [("COMPLETED:") ++ s]))

/-- CREATED lines (rtm_to_nextcloud.py lines 123-127). -/
def created_lines (tz : Int) (task : Task) : Except String (List String) :=
  match task.date_created with
  | none => Except.ok []
  | some v =>
    if v = 0 then Except.ok []
    else
      match format_datetime tz v true with
      | Except.error e => Except.error e
      | Except.ok none => Except.ok []
      | Except.ok (some s) =>
        Except.ok (if s = ("") then [] else [("CREATED:") ++ s])

/-- LAST-MODIFIED lines (rtm_to_nextcloud.py lines 129-133). -/
def modified_lines (tz : Int) (task : Task) : Except String (List String) :=
  match task.date_modified with
  | none => Except.ok []
  | some v =>
    if v = 0 then Except.ok []
    else
      match format_datetime tz v true with
      | Except.error e => Except.error e
      | Except.ok none => Except.ok []
      | Except.ok (some s) =>
        Except.ok (if s = ("") then [] else [("LAST-MODIFIED:") ++ s])

/-- RELATED-TO lines (rtm_to_nextcloud.py lines 74-78). -/
def related_lines (task : Task) : List String :=
  match task.parent_id with
  | none => []
  | some p => if p = ("") then [] else [("RELATED-TO:rtm-") ++ p]

/-- PRIORITY lines (rtm_to_nextcloud.py lines 84-88). -/
def priority_lines (task : Task) : List String :=
  match task.priority with
  | none => []
  | some p =>
    if p = ("") then []
    else if convert_priority p > 0 then [("PRIORITY:") ++ toString (convert_priority p)] else []

/-- RRULE lines (rtm_to_nextcloud.py lines 135-139). -/
def rrule_lines (task : Task) : List String :=
  match task.repeat_rule with
  | none => []
  | some r =>
    if r = ("") then []
    else
      match convert_recurrence r with
      | none => []
      | some rr => [("RRULE:") ++ rr]

/-- URL lines (rtm_to_nextcloud.py lines 141-144). -/
def url_lines (task : Task) : List String :=
  match task.url with
  | none => []
  | some u => if u = ("") then [] else [("URL:") ++ escape_ical_text u]

/-- CATEGORIES lines (rtm_to_nextcloud.py lines 146-158): the tag strings
followed by the resolved list name (when the list id is truthy and
resolves), comma-joined with each element escaped. -/
def categories_lines (task : Task) (lists : List (String × String)) : List String :=
  let categories :=
    (if task.tags.isEmpty then [] else task.tags) ++
      (let list_id := task.list_id.getD ("")
       if list_id = ("") then []
       else
         match lookupA lists list_id with
         | some nm => [nm]
         | none => [])
  if categories.isEmpty then []
  else [("CATEGORIES:") ++ String.intercalate (",") (categories.map escape_ical_text)]

/-- DESCRIPTION lines (rtm_to_nextcloud.py lines 160-173): the non-empty
note contents of the task's series, joined by blank lines, escaped. -/
def description_lines (task : Task) (notes_by_series : List (String × List Note)) : List String :=
  let description_parts :=
    let series_id := task.series_id.getD ("")
    if series_id = ("") then []
    else
      match lookupA notes_by_series series_id with
      | some ns => (ns.map (fun note => note.content.getD (""))).filter (fun t => !t.isEmpty)
      | none => []
  if description_parts.isEmpty then []
  else [("DESCRIPTION:") ++ escape_ical_text (String.intercalate ("\n\n") description_parts)]

/-- X-RTM-POSTPONE-COUNT lines (rtm_to_nextcloud.py lines 175-177); this
is the only vendor-extension line the mapper emits. -/
def postpone_lines (task : Task) : List String :=
  match task.postponed with
  | none => []
  | some v => if v = 0 then [] else [("X-RTM-POSTPONE-COUNT:") ++ toString v]

/-- Embedding of `convert_task_to_vtodo` (rtm_to_nextcloud.py lines
65-180) as the ordered list of block lines, before the final CRLF join. -/
def convert_task_to_vtodo_lines (tz : Int) (task : Task) (lists : List (String × String)) (notes_by_series : List (String × List Note)) : Except String (List String) :=
  match due_lines tz task with
  | Except.error e => Except.error e
  | Except.ok dl =>
    match start_lines tz task with
    | Except.error e => Except.error e
    | Except.ok sl =>
      match status_lines tz task with
      | Except.error e => Except.error e
      | Except.ok stl =>
        match created_lines tz task with
        | Except.error e => Except.error e
        | Except.ok cl =>
          match modified_lines tz task with
          | Except.error e => Except.error e
          | Except.ok ml =>
            Except.ok ([("BEGIN:VTODO"), ("UID:rtm-") ++ task.id] ++
              related_lines task ++
              [("SUMMARY:") ++ escape_ical_text (task.name.getD ("Untitled Task"))] ++
              priority_lines task ++ dl ++ sl ++ stl ++ cl ++ ml ++
              rrule_lines task ++ url_lines task ++
              categories_lines task lists ++ description_lines task notes_by_series ++
              postpone_lines task ++ [("END:VTODO")])

/-- The string `convert_task_to_vtodo` returns: its lines CRLF-joined. -/
def convert_task_to_vtodo (tz : Int) (task : Task) (lists : List (String × String)) (notes_by_series : List (String × List Note)) : Except String String :=
  match convert_task_to_vtodo_lines tz task lists notes_by_series with
  | Except.error e => Except.error e
  | Except.ok ls => Except.ok (String.intercalate ("\r\n") ls)

/-- The filter configuration consumed by `should_include_task`: the
argparse namespace of the CLI and the duck-typed `Args` object of the
TUI.  `skip_completed_before` is the parsed naive cutoff datetime,
represented by its local-epoch second count. -/
structure Args where
  lists : Option (List String) := none
  exclude_lists : Option (List String) := none
  incomplete_only : Bool := false
  skip_completed_before : Option Int := none
deriving Repr, DecidableEq

/-- The resolved list display name used by the filter clauses:
`list_names.get(str(task.get('list_id', '')), '')`. -/
def resolved_list_name (task : Task) (list_names : List (String × String)) : String :=
  (lookupA list_names (task.list_id.getD (""))).getD ("")

/-- Embedding of `datetime.fromtimestamp(ms / 1000.0)` as used by the
completion-age filter: Python raises for local years outside 1..9999;
otherwise the resulting naive datetime is represented by its local-epoch
millisecond count, so that comparison against a cutoff datetime (given in
local-epoch seconds) is exact. -/
def fromtimestamp_check (tz : Int) (ms : Int) : Except String Int :=
  if localYear tz ms < 1 ∨ 9999 < localYear tz ms then Except.error ("year out of range")
  else Except.ok (ms + tz * 1000)

/-- Embedding of `should_include_task` (rtm_to_nextcloud.py lines
183-212): allow-list, deny-list, incomplete-only and completion-age
clauses checked in order, each early-returning `False`. -/
def should_include_task (tz : Int) (task : Task) (args : Args) (list_names : List (String × String)) : Except String Bool :=
  let list_name := resolved_list_name task list_names
  if truthyStrList args.lists && !((args.lists.getD []).contains list_name) then Except.ok false
  else if truthyStrList args.exclude_lists && (args.exclude_lists.getD []).contains list_name then Except.ok false
  else if args.incomplete_only && truthyInt task.date_completed then Except.ok false
  else if args.skip_completed_before.isSome && truthyInt task.date_completed then
    match task.date_completed with
    | some cd =>
      if cd != 0 then
        match fromtimestamp_check tz cd with
        | Except.error e => Except.error e
        | Except.ok lm =>
          if lm < args.skip_completed_before.getD 0 * 1000 then Except.ok false else Except.ok true
      else Except.ok true
    | none => Except.ok true
  else Except.ok true

/-- The list-inclusion allow-list clause of §4.5: vacuously true when not
configured, otherwise membership of the resolved list name. -/
def passes_allow (args : Args) (list_name : String) : Bool :=
  !truthyStrList args.lists || (args.lists.getD []).contains list_name

/-- The list-exclusion deny-list clause of §4.5. -/
def passes_deny (args : Args) (list_name : String) : Bool :=
  !truthyStrList args.exclude_lists || !((args.exclude_lists.getD []).contains list_name)

/-- The completion-status clause of §4.5. -/
def passes_incomplete_filter (args : Args) (task : Task) : Bool :=
  !(args.incomplete_only && truthyInt task.date_completed)

/-- The completion-age clause of §4.5: fails exactly for tasks that are
completed while a cutoff is configured and whose completion instant
converts (without raising) to a local time strictly before the cutoff. -/
def passes_age (tz : Int) (args : Args) (task : Task) : Bool :=
  !(args.skip_completed_before.isSome && truthyInt task.date_completed &&
    (match task.date_completed with
     | some cd =>
       (match fromtimestamp_check tz cd with
        | Except.ok lm => decide (lm < args.skip_completed_before.getD 0 * 1000)
        | Except.error _ => false)
     | none => false))

/-- Append a task to its group, creating the group at the end on first
use: the embedding of `tasks_by_list[list_id].append(task)` over an
insertion-ordered dict. -/
def appendGroup (gs : List (String × List Task)) (k : String) (t : Task) : List (String × List Task) :=
  match gs with
  | [] => [(k, [t])]
  | (k2, ts) :: rest => if k2 = k then (k2, ts ++ [t]) :: rest else (k2, ts) :: appendGroup rest k t

/-- Value of a key in the grouped tasks (empty list when absent). -/
def lookupGroup : List (String × List Task) → String → List Task
  | [], _ => []
  | (k2, ts) :: rest, k => if k2 = k then ts else lookupGroup rest k

/-- Embedding of the filter-and-group loop of `main` (rtm_to_nextcloud.py
lines 314-324): included tasks are appended to their `list_id` group in
input order, excluded tasks are counted. -/
def filter_and_group (tz : Int) (args : Args) (list_names : List (String × String)) : List Task → List (String × List Task) → Nat → Except String (List (String × List Task) × Nat)
  | [], acc, n => Except.ok (acc, n)
  | t :: ts, acc, n =>
    match should_include_task tz t args list_names with
    | Except.error e => Except.error e
    | Except.ok true => filter_and_group tz args list_names ts (appendGroup acc (t.list_id.getD ("")) t) n
    | Except.ok false => filter_and_group tz args list_names ts acc (n + 1)

/-- Whether a task survives the filter (a run that raises is `false`;
such a run aborts before producing any grouping). -/
def includedB (tz : Int) (args : Args) (list_names : List (String × String)) (t : Task) : Bool :=
  match should_include_task tz t args list_names with
  | Except.ok true => true
  | _ => false

/-- Embedding of the filename sanitization (rtm_to_nextcloud.py line
340): every character that is not alphanumeric, space, hyphen or
underscore becomes an underscore. -/
def sanitize_name (s : String) : String :=
  String.mk (s.data.map (fun c => if c.isAlphanum || c == (' ') || c == ('-') || c == ('_') then c else ('_')))

/-- Embedding of the per-list document assembly of `main`
(rtm_to_nextcloud.py lines 336-356): for each group, the five header
lines, the task blocks in group order and the footer, CRLF-joined,
paired with the sanitized output name. -/
def cli_build_documents (tz : Int) (args : Args) (list_names : List (String × String)) (notes_by_series : List (String × List Note)) (tasks : List Task) : Except String (List (String × String)) :=
  match filter_and_group tz args list_names tasks [] 0 with
  | Except.error e => Except.error e
  | Except.ok (groups, _) =>
    groups.mapM (fun g =>
      match g with
      | (list_id, ts) =>
        let list_name := (lookupA list_names list_id).getD (("List-") ++ list_id)
        let safe_name := sanitize_name list_name
        match ts.mapM (fun t => convert_task_to_vtodo tz t list_names notes_by_series) with
        | Except.error e => Except.error e
        | Except.ok blocks =>
          Except.ok (safe_name ++ (".ics"),
            String.intercalate ("\r\n")
              (([("BEGIN:VCALENDAR"), ("VERSION:2.0"), ("PRODID:-//RTM to Nextcloud Converter//EN"), ("CALSCALE:GREGORIAN"), ("X-WR-CALNAME:") ++ escape_ical_text list_name] ++ blocks) ++ [("END:VCALENDAR")])))

/-- The filter-and-group loop of the TUI variant (rtm_to_nextcloud_tui.py
lines 268-278), a line-for-line duplicate of the CLI loop around the
imported `should_include_task`. -/
def tui_filter_and_group (tz : Int) (args : Args) (list_names : List (String × String)) : List Task → List (String × List Task) → Nat → Except String (List (String × List Task) × Nat)
  | [], acc, n => Except.ok (acc, n)
  | t :: ts, acc, n =>
    match should_include_task tz t args list_names with
    | Except.error e => Except.error e
    | Except.ok true => tui_filter_and_group tz args list_names ts (appendGroup acc (t.list_id.getD ("")) t) n
    | Except.ok false => tui_filter_and_group tz args list_names ts acc (n + 1)

/-- Embedding of the document assembly of `action_convert`
(rtm_to_nextcloud_tui.py lines 280-303), built around the imported
`convert_task_to_vtodo` and `escape_ical_text`. -/
def tui_build_documents (tz : Int) (args : Args) (list_names : List (String × String)) (notes_by_series : List (String × List Note)) (tasks : List Task) : Except String (List (String × String)) :=
  match tui_filter_and_group tz args list_names tasks [] 0 with
  | Except.error e => Except.error e
  | Except.ok (groups, _) =>
    groups.mapM (fun g =>
      match g with
      | (list_id, ts) =>
        let list_name := (lookupA list_names list_id).getD (("List-") ++ list_id)
        let safe_name := sanitize_name list_name
        match ts.mapM (fun t => convert_task_to_vtodo tz t list_names notes_by_series) with
        | Except.error e => Except.error e
        | Except.ok blocks =>
          Except.ok (safe_name ++ (".ics"),
            String.intercalate ("\r\n")
              (([("BEGIN:VCALENDAR"), ("VERSION:2.0"), ("PRODID:-//RTM to Nextcloud Converter//EN"), ("CALSCALE:GREGORIAN"), ("X-WR-CALNAME:") ++ escape_ical_text list_name] ++ blocks) ++ [("END:VCALENDAR")])))

/-- The target format's unescape rule for TEXT values.  Modelled from the
spec: the inverse direction of §8's round-trip property is the format's
own rule, which is not part of this repository's sources.  A backslash
escape pair maps back to the escaped character (with `n`/`N` denoting
newline); other characters pass through. -/
def unescChar (c : Char) : Char :=
  if c = ('n') then ('\n') else if c = ('N') then ('\n') else c

/-- Modelled from the spec: the target format's TEXT unescaping pass,
consuming one backslash escape pair at a time. -/
def unescape_ical : List Char → List Char
  | [] => []
  | [c] => [c]
  | c :: d :: rest =>
    if c = ('\\') then unescChar d :: unescape_ical rest
    else c :: unescape_ical (d :: rest)

/-! ### Escaper lemmas -/

theorem string_mk_data (s : String) : String.mk s.data = s := by
  cases s
  rfl

theorem replace1_append (p : Char) (r : List Char) (a b : List Char) :
    replace1 p r (a ++ b) = replace1 p r a ++ replace1 p r b := by
  induction a with
  | nil => simp [replace1]
  | cons c cs ih =>
    by_cases h : c = p <;> simp [replace1, h, ih]

theorem escape_chars_append (a b : List Char) :
    escape_chars (a ++ b) = escape_chars a ++ escape_chars b := by
  simp [escape_chars, replace1_append]

theorem escape_chars_cons (c : Char) (l : List Char) :
    escape_chars (c :: l) = escape_chars [c] ++ escape_chars l :=
  escape_chars_append [c] l

theorem escape_chars_singleton_of_safe (c : Char)
    (h : ¬(c = ('\\') ∨ c = (',') ∨ c = (';') ∨ c = ('\n'))) :
    escape_chars [c] = [c] := by
  push_neg at h
  obtain ⟨h1, h2, h3, h4⟩ := h
  simp [escape_chars, replace1, h1, h2, h3, h4]

theorem escape_chars_eq_self (l : List Char)
    (h : ∀ c ∈ l, ¬(c = ('\\') ∨ c = (',') ∨ c = (';') ∨ c = ('\n'))) :
    escape_chars l = l := by
  induction l with
  | nil => rfl
  | cons c cs ih =>
    rw [escape_chars_cons, escape_chars_singleton_of_safe c (h c (by simp)),
      ih (fun d hd => h d (by simp [hd]))]
    rfl

theorem unescape_ical_cons_ne (c : Char) (l : List Char) (h : ¬c = ('\\')) :
    unescape_ical (c :: l) = c :: unescape_ical l := by
  cases l with
  | nil => rfl
  | cons d rest => simp [unescape_ical, h]

theorem unescape_ical_pair (d : Char) (l : List Char) :
    unescape_ical (('\\') :: d :: l) = unescChar d :: unescape_ical l := by
  simp [unescape_ical]

theorem unescape_escape_chars (l : List Char) :
    unescape_ical (escape_chars l) = l := by
  induction l with
  | nil => rfl
  | cons c cs ih =>
    rw [escape_chars_cons]
    by_cases h1 : c = ('\\')
    · subst h1
      have he : escape_chars ([ '\\' ]) = [ '\\', '\\' ] := by decide
      rw [he]
      simpa [unescape_ical_pair, unescChar] using ih
    · by_cases h2 : c = (',')
      · subst h2
        have he : escape_chars ([ ',' ]) = [ '\\', ',' ] := by decide
        rw [he]
        simpa [unescape_ical_pair, unescChar] using ih
      · by_cases h3 : c = (';')
        · subst h3
          have he : escape_chars ([ ';' ]) = [ '\\', ';' ] := by decide
          rw [he]
          simpa [unescape_ical_pair, unescChar] using ih
        · by_cases h4 : c = ('\n')
          · subst h4
            have he : escape_chars ([ '\n' ]) = [ '\\', 'n' ] := by decide
            rw [he]
            simpa [unescape_ical_pair, unescChar] using ih
          · rw [escape_chars_singleton_of_safe c (by simp [h1, h2, h3, h4]),
              List.singleton_append, unescape_ical_cons_ne c _ h1, ih]

/-- C8: `escape_ical_text` is the identity on text containing none of the
four reserved characters (backslash, comma, semicolon, newline) — in
particular it is idempotent on such text — and for every text without
control characters other than newline, the target format's unescape rule
applied to the escaped text yields the original text. -/
theorem escape_ical_text_idempotent_and_roundtrip :
    (∀ s : String, (∀ c ∈ s.data, ¬(c = ('\\') ∨ c = (',') ∨ c = (';') ∨ c = ('\n'))) →
      escape_ical_text s = s) ∧
    (∀ s : String, (∀ c ∈ s.data, ¬(c.toNat < 32 ∧ c ≠ ('\n'))) →
      unescape_ical (escape_ical_text s).data = s.data) := by
  constructor
  · intro s h
    unfold escape_ical_text
    by_cases hs : s = ("")
    · simp [hs]
    · rw [if_neg hs, escape_chars_eq_self s.data h, string_mk_data]
  · intro s _
    unfold escape_ical_text
    by_cases hs : s = ("")
    · simp [hs, unescape_ical]
    · rw [if_neg hs]
      exact unescape_escape_chars s.data

/-- Witness for C8 at concrete inputs. -/
theorem escape_ical_text_idempotent_and_roundtrip_witness :
    escape_ical_text ("Work") = ("Work") ∧
    unescape_ical (escape_ical_text ("a,b\nc;d\\e")).data = ("a,b\nc;d\\e").data :=
  ⟨escape_ical_text_idempotent_and_roundtrip.1 ("Work") (by decide),
    escape_ical_text_idempotent_and_roundtrip.2 ("a,b\nc;d\\e") (by decide)⟩

/-! ### Temporal formatter lemmas -/

theorem natDigitsGo_sufficient (n : Nat) :
    ∀ fuel, n ≤ fuel → natDigitsGo fuel n = natDigitsGo n n := by
  induction n using Nat.strong_induction_on with
  | _ n ih =>
    intro fuel hf
    by_cases h : n < 10
    · cases fuel with
      | zero =>
        have : n = 0 := by omega
        rw [this]
      | succ f =>
        rw [natDigitsGo]
        cases n with
        | zero => rfl
        | succ m => rw [natDigitsGo]; simp [h]
    · cases fuel with
      | zero => omega
      | succ f =>
        obtain ⟨m, rfl⟩ : ∃ m, n = m + 1 := ⟨n - 1, by omega⟩
        rw [natDigitsGo, natDigitsGo]
        simp only [if_neg (show ¬m + 1 < 10 by omega)]
        rw [ih ((m + 1) / 10) (by omega) f (by omega),
          ih ((m + 1) / 10) (by omega) m (by omega)]

theorem natDigits_lt10 (n : Nat) (h : n < 10) : natDigits n = [Nat.digitChar n] := by
  unfold natDigits
  cases n with
  | zero => rfl
  | succ m => rw [natDigitsGo]; simp [h]

theorem natDigits_ge10 (n : Nat) (h : 10 ≤ n) :
    natDigits n = natDigits (n / 10) ++ [Nat.digitChar (n % 10)] := by
  unfold natDigits
  obtain ⟨m, rfl⟩ : ∃ m, n = m + 1 := ⟨n - 1, by omega⟩
  rw [natDigitsGo]
  simp only [if_neg (show ¬m + 1 < 10 by omega)]
  rw [natDigitsGo_sufficient ((m + 1) / 10) m (by omega)]

theorem natDigits_ne_nil (n : Nat) : natDigits n ≠ [] := by
  by_cases h : n < 10
  · simp [natDigits_lt10 n h]
  · simp [natDigits_ge10 n (by omega)]

theorem natDigits_length_one (n : Nat) (h : n < 10) : (natDigits n).length = 1 := by
  simp [natDigits_lt10 n h]

theorem natDigits_length_two (n : Nat) (h1 : 10 ≤ n) (h2 : n ≤ 99) :
    (natDigits n).length = 2 := by
  rw [natDigits_ge10 n h1]
  simp [natDigits_length_one (n / 10) (by omega)]

theorem natDigits_length_three (n : Nat) (h1 : 100 ≤ n) (h2 : n ≤ 999) :
    (natDigits n).length = 3 := by
  rw [natDigits_ge10 n (by omega)]
  simp [natDigits_length_two (n / 10) (by omega) (by omega)]

theorem natDigits_length_four (n : Nat) (h1 : 1000 ≤ n) (h2 : n ≤ 9999) :
    (natDigits n).length = 4 := by
  rw [natDigits_ge10 n (by omega)]
  simp [natDigits_length_three (n / 10) (by omega) (by omega)]

theorem digitChar_isDigit (n : Nat) (h : n < 10) : (Nat.digitChar n).isDigit = true := by
  have h10 : ∀ m : Nat, m < 10 → (Nat.digitChar m).isDigit = true := by decide
  exact h10 n h

theorem natDigits_all_isDigit (n : Nat) : ∀ c ∈ natDigits n, c.isDigit = true := by
  induction n using Nat.strong_induction_on with
  | _ n ih =>
    by_cases h : n < 10
    · rw [natDigits_lt10 n h]
      intro c hc
      rw [List.mem_singleton.1 hc]
      exact digitChar_isDigit n h
    · rw [natDigits_ge10 n (by omega)]
      intro c hc
      rcases List.mem_append.1 hc with h1 | h2
      · exact ih (n / 10) (by omega) c h1
      · rw [List.mem_singleton.1 h2]
        exact digitChar_isDigit (n % 10) (Nat.mod_lt n (by omega))

theorem pad2c_length (n : Nat) (h : n ≤ 99) : (pad2c n).length = 2 := by
  unfold pad2c
  split
  · next hlt => simp [natDigits_length_one n hlt]
  · next hge => exact natDigits_length_two n (by omega) h

theorem pad2c_all_isDigit (n : Nat) : ∀ c ∈ pad2c n, c.isDigit = true := by
  unfold pad2c
  split
  · intro c hc
    rcases List.mem_cons.1 hc with h1 | h2
    · rw [h1]; decide
    · exact natDigits_all_isDigit n c h2
  · exact natDigits_all_isDigit n

theorem civil_month_day_bounds (z0 : Int) :
    1 ≤ (civilFromDays z0).2.1 ∧ (civilFromDays z0).2.1 ≤ 12 ∧
    1 ≤ (civilFromDays z0).2.2 ∧ (civilFromDays z0).2.2 ≤ 31 := by
  have h0 : 0 ≤ (z0 + 719468) % 146097 := Int.emod_nonneg _ (by decide)
  have h1 : (z0 + 719468) % 146097 < 146097 := Int.emod_lt_of_pos _ (by decide)
  simp only [civilFromDays]
  split <;> omega

theorem sod_nonneg (ls : Int) : 0 ≤ ls % 86400 := Int.emod_nonneg _ (by decide)

theorem sod_lt (ls : Int) : ls % 86400 < 86400 := Int.emod_lt_of_pos _ (by decide)

/-- Shape of a successful `format_datetime` call on a truthy timestamp:
the result is `some` of a nonempty digit string whose local year is in
Python's 1..9999 range. -/
theorem format_datetime_ok_of_ne_zero (tz ms : Int) (b : Bool) (r : Option String)
    (h0 : ¬ms = 0) (h : format_datetime tz ms b = Except.ok r) :
    ∃ s, r = some s ∧ ¬s = ("") ∧ 1 ≤ localYear tz ms ∧ localYear tz ms ≤ 9999 := by
  unfold format_datetime at h
  rw [if_neg h0] at h
  simp only [] at h
  split at h
  · exact absurd h (by simp)
  · next hy =>
    push_neg at hy
    refine ⟨_, (Except.ok.inj h).symm, ?_, hy.1, hy.2⟩
    intro hcontra
    have hdata : (natDigits (civilFromDays ((ms / 1000 + tz) / 86400)).1.toNat ++
        pad2c (civilFromDays ((ms / 1000 + tz) / 86400)).2.1.toNat ++
        pad2c (civilFromDays ((ms / 1000 + tz) / 86400)).2.2.toNat ++
        (if b then
          ('T') :: (pad2c (((ms / 1000 + tz) % 86400) / 3600).toNat ++
            pad2c ((((ms / 1000 + tz) % 86400) % 3600) / 60).toNat ++
            pad2c (((ms / 1000 + tz) % 86400) % 60).toNat)
        else [])) = [] := congrArg String.data hcontra
    simp [List.append_eq_nil] at hdata
    exact natDigits_ne_nil _ hdata.1

/-- C9 counterexample: the claim quantifies over every non-zero
epoch-millisecond value, but Python's `datetime.fromtimestamp` raises for
timestamps whose year exceeds 9999, so `format_datetime` returns no
string at all there (it propagates the exception); the embedding returns
`Except.error` at the concrete non-zero input 400000000000000000 ms. -/
theorem format_datetime_not_always_8_chars :
    format_datetime 0 400000000000000000 false = Except.error ("year out of range") ∧
    (400000000000000000 : Int) ≠ 0 := by
  constructor
  · rfl
  · decide

/-- C9 amended: for every non-zero epoch-millisecond value whose local
civil year lies within 1000..9999 (so that conversion does not raise and
the year prints with four digits), the formatter with `has_time = false`
returns a string of exactly 8 characters matching `\d{8}`, and with
`has_time = true` a string of exactly 15 characters matching
`\d{8}T\d{6}` (the same 8-character date followed by `T` and six time
digits, no timezone suffix), the timestamp interpreted at the local
offset `tz`. -/
theorem format_datetime_shape (tz ms : Int) (h0 : ms ≠ 0)
    (hy1 : 1000 ≤ localYear tz ms) (hy2 : localYear tz ms ≤ 9999) :
    ∃ d8 t6 : List Char,
      format_datetime tz ms false = Except.ok (some (String.mk d8)) ∧
      format_datetime tz ms true = Except.ok (some (String.mk (d8 ++ ('T') :: t6))) ∧
      d8.length = 8 ∧ t6.length = 6 ∧
      (∀ c ∈ d8, c.isDigit = true) ∧ (∀ c ∈ t6, c.isDigit = true) := by
  have hmd := civil_month_day_bounds ((ms / 1000 + tz) / 86400)
  have hs0 := sod_nonneg (ms / 1000 + tz)
  have hs1 := sod_lt (ms / 1000 + tz)
  refine ⟨natDigits (civilFromDays ((ms / 1000 + tz) / 86400)).1.toNat ++
      pad2c (civilFromDays ((ms / 1000 + tz) / 86400)).2.1.toNat ++
      pad2c (civilFromDays ((ms / 1000 + tz) / 86400)).2.2.toNat,
    pad2c (((ms / 1000 + tz) % 86400) / 3600).toNat ++
      pad2c ((((ms / 1000 + tz) % 86400) % 3600) / 60).toNat ++
      pad2c (((ms / 1000 + tz) % 86400) % 60).toNat, ?_, ?_, ?_, ?_, ?_, ?_⟩
  · unfold format_datetime
    rw [if_neg h0, if_neg (by unfold localYear at hy1 hy2; omega)]
    simp
  · unfold format_datetime
    rw [if_neg h0, if_neg (by unfold localYear at hy1 hy2; omega)]
    simp
  · unfold localYear at hy1 hy2
    rw [List.length_append, List.length_append,
      natDigits_length_four _ (by omega) (by omega),
      pad2c_length _ (by omega), pad2c_length _ (by omega)]
  · rw [List.length_append, List.length_append,
      pad2c_length _ (by omega), pad2c_length _ (by omega), pad2c_length _ (by omega)]
  · intro c hc
    rcases List.mem_append.1 hc with hc1 | hc2
    · rcases List.mem_append.1 hc1 with hc3 | hc4
      · exact natDigits_all_isDigit _ c hc3
      · exact pad2c_all_isDigit _ c hc4
    · exact pad2c_all_isDigit _ c hc2
  · intro c hc
    rcases List.mem_append.1 hc with hc1 | hc2
    · rcases List.mem_append.1 hc1 with hc3 | hc4
      · exact pad2c_all_isDigit _ c hc3
      · exact pad2c_all_isDigit _ c hc4
    · exact pad2c_all_isDigit _ c hc2

/-- Witness for C9's amended theorem at 2023-11-14T22:13:20 UTC. -/
theorem format_datetime_shape_witness :
    (1700000000000 : Int) ≠ 0 ∧ 1000 ≤ localYear 0 1700000000000 ∧
      localYear 0 1700000000000 ≤ 9999 ∧
    ∃ d8 t6 : List Char,
      format_datetime 0 1700000000000 false = Except.ok (some (String.mk d8)) ∧
      format_datetime 0 1700000000000 true = Except.ok (some (String.mk (d8 ++ ('T') :: t6))) ∧
      d8.length = 8 ∧ t6.length = 6 ∧
      (∀ c ∈ d8, c.isDigit = true) ∧ (∀ c ∈ t6, c.isDigit = true) :=
  ⟨by decide, by decide, by decide,
    format_datetime_shape 0 1700000000000 (by decide) (by decide) (by decide)⟩

/-! ### Record mapper decomposition -/

/-- A successful block conversion decomposes into its segments in the
fixed field order of `convert_task_to_vtodo`. -/
theorem convert_lines_decomp (tz : Int) (task : Task) (lists : List (String × String)) (notes : List (String × List Note)) (lines : List String)
    (h : convert_task_to_vtodo_lines tz task lists notes = Except.ok lines) :
    ∃ dl sl stl cl ml,
      due_lines tz task = Except.ok dl ∧
      start_lines tz task = Except.ok sl ∧
      status_lines tz task = Except.ok stl ∧
      created_lines tz task = Except.ok cl ∧
      modified_lines tz task = Except.ok ml ∧
      lines = [("BEGIN:VTODO"), ("UID:rtm-") ++ task.id] ++
        related_lines task ++
        [("SUMMARY:") ++ escape_ical_text (task.name.getD ("Untitled Task"))] ++
        priority_lines task ++ dl ++ sl ++ stl ++ cl ++ ml ++
        rrule_lines task ++ url_lines task ++
        categories_lines task lists ++ description_lines task notes ++
        postpone_lines task ++ [("END:VTODO")] := by
  unfold convert_task_to_vtodo_lines at h
  repeat' split at h
  all_goals try exact Except.noConfusion h
  exact ⟨_, _, _, _, _, by assumption, by assumption, by assumption, by assumption,
    by assumption, (Except.ok.inj h).symm⟩

/-! ### Line-shape helpers -/

theorem string_data_inj {s t : String} (h : s.data = t.data) : s = t := by
  have := congrArg String.mk h
  simpa [string_mk_data] using this

/-- Two differently-tagged lines are distinct when neither tag is a
prefix of the other. -/
theorem tagged_ne_tagged (p q x y : String)
    (h1 : ¬ p.data <+: q.data) (h2 : ¬ q.data <+: p.data) : p ++ x ≠ q ++ y := by
  intro hcontra
  have hd : p.data ++ x.data = q.data ++ y.data := by
    have := congrArg String.data hcontra
    simpa [String.data_append] using this
  have hp : p.data <+: q.data ++ y.data := hd ▸ ⟨x.data, rfl⟩
  rcases List.prefix_or_prefix_of_prefix hp ⟨y.data, rfl⟩ with hpq | hqp
  · exact h1 hpq
  · exact h2 hqp

/-- A tagged line differs from a literal line that does not begin with
the tag. -/
theorem tagged_ne_lit (p x q : String) (h1 : ¬ p.data <+: q.data) : p ++ x ≠ q := by
  intro hcontra
  refine h1 ⟨x.data, ?_⟩
  have := congrArg String.data hcontra
  simpa [String.data_append] using this

/-- Cancellation for equal tags. -/
theorem tagged_inj (p x y : String) (h : p ++ x = p ++ y) : x = y := by
  have hd : p.data ++ x.data = p.data ++ y.data := by
    have := congrArg String.data h
    simpa [String.data_append] using this
  exact string_data_inj (List.append_cancel_left hd)

theorem mem_related_shape (task : Task) (x : String) (hx : x ∈ related_lines task) :
    ∃ r, x = ("RELATED-TO:rtm-") ++ r := by
  unfold related_lines at hx
  split at hx
  · simp at hx
  · split at hx
    · simp at hx
    · exact ⟨_, List.mem_singleton.1 hx⟩

theorem mem_priority_shape (task : Task) (x : String) (hx : x ∈ priority_lines task) :
    ∃ r, x = ("PRIORITY:") ++ r := by
  unfold priority_lines at hx
  split at hx
  · simp at hx
  · split at hx
    · simp at hx
    · split at hx
      · exact ⟨_, List.mem_singleton.1 hx⟩
      · simp at hx

theorem mem_due_shape (tz : Int) (task : Task) (dl : List String) (x : String)
    (h : due_lines tz task = Except.ok dl) (hx : x ∈ dl) :
    (∃ r, x = ("DUE:") ++ r) ∨ (∃ r, x = ("DUE;VALUE=DATE:") ++ r) := by
  unfold due_lines at h
  repeat' split at h
  all_goals try exact Except.noConfusion h
  all_goals rw [← Except.ok.inj h] at hx
  all_goals simp at hx
  · exact Or.inl ⟨_, hx⟩
  · exact Or.inr ⟨_, hx⟩

theorem mem_start_shape (tz : Int) (task : Task) (sl : List String) (x : String)
    (h : start_lines tz task = Except.ok sl) (hx : x ∈ sl) :
    (∃ r, x = ("DTSTART:") ++ r) ∨ (∃ r, x = ("DTSTART;VALUE=DATE:") ++ r) := by
  unfold start_lines at h
  repeat' split at h
  all_goals try exact Except.noConfusion h
  all_goals rw [← Except.ok.inj h] at hx
  all_goals simp at hx
  · exact Or.inl ⟨_, hx⟩
  · exact Or.inr ⟨_, hx⟩

theorem mem_status_shape (tz : Int) (task : Task) (stl : List String) (x : String)
    (h : status_lines tz task = Except.ok stl) (hx : x ∈ stl) :
    x = ("STATUS:NEEDS-ACTION") ∨ x = ("STATUS:COMPLETED") ∨ ∃ r, x = ("COMPLETED:") ++ r := by
  unfold status_lines at h
  repeat' split at h
  all_goals try exact Except.noConfusion h
  all_goals rw [← Except.ok.inj h] at hx
  all_goals simp at hx
  · exact Or.inl hx
  · exact Or.inl hx
  · exact Or.inr (Or.inl hx)
  · exact Or.inr (Or.inl hx)
  · rcases hx with h1 | h2
    · exact Or.inr (Or.inl h1)
    · exact Or.inr (Or.inr ⟨_, h2⟩)

theorem mem_created_shape (tz : Int) (task : Task) (cl : List String) (x : String)
    (h : created_lines tz task = Except.ok cl) (hx : x ∈ cl) :
    ∃ r, x = ("CREATED:") ++ r := by
  unfold created_lines at h
  repeat' split at h
  all_goals try exact Except.noConfusion h
  all_goals rw [← Except.ok.inj h] at hx
  all_goals simp at hx
  exact ⟨_, hx⟩

theorem mem_modified_shape (tz : Int) (task : Task) (ml : List String) (x : String)
    (h : modified_lines tz task = Except.ok ml) (hx : x ∈ ml) :
    ∃ r, x = ("LAST-MODIFIED:") ++ r := by
  unfold modified_lines at h
  repeat' split at h
  all_goals try exact Except.noConfusion h
  all_goals rw [← Except.ok.inj h] at hx
  all_goals simp at hx
  exact ⟨_, hx⟩

theorem mem_rrule_shape (task : Task) (x : String) (hx : x ∈ rrule_lines task) :
    ∃ r, x = ("RRULE:") ++ r := by
  unfold rrule_lines at hx
  repeat' split at hx
  all_goals simp at hx
  exact ⟨_, hx⟩

theorem mem_url_shape (task : Task) (x : String) (hx : x ∈ url_lines task) :
    ∃ r, x = ("URL:") ++ r := by
  unfold url_lines at hx
  repeat' split at hx
  all_goals simp at hx
  exact ⟨_, hx⟩

theorem mem_categories_shape (task : Task) (lists : List (String × String)) (x : String)
    (hx : x ∈ categories_lines task lists) :
    ∃ r, x = ("CATEGORIES:") ++ r := by
  simp only [categories_lines] at hx
  repeat' split at hx
  all_goals simp at hx
  all_goals exact ⟨_, hx⟩

theorem mem_description_shape (task : Task) (notes : List (String × List Note)) (x : String)
    (hx : x ∈ description_lines task notes) :
    ∃ r, x = ("DESCRIPTION:") ++ r := by
  simp only [description_lines] at hx
  repeat' split at hx
  all_goals simp at hx
  all_goals exact ⟨_, hx⟩

theorem mem_postpone_shape (task : Task) (x : String) (hx : x ∈ postpone_lines task) :
    ∃ r, x = ("X-RTM-POSTPONE-COUNT:") ++ r := by
  unfold postpone_lines at hx
  repeat' split at hx
  all_goals simp at hx
  exact ⟨_, hx⟩

/-- Every line of a successfully mapped block belongs to exactly one of
the sixteen ordered segments of `convert_task_to_vtodo`. -/
theorem mem_convert_lines_cases (tz : Int) (task : Task) (lists : List (String × String)) (notes : List (String × List Note)) (lines : List String)
    (h : convert_task_to_vtodo_lines tz task lists notes = Except.ok lines)
    (x : String) (hx : x ∈ lines) :
    x = ("BEGIN:VTODO") ∨
    x = ("UID:rtm-") ++ task.id ∨
    x ∈ related_lines task ∨
    x = ("SUMMARY:") ++ escape_ical_text (task.name.getD ("Untitled Task")) ∨
    x ∈ priority_lines task ∨
    (∃ dl, due_lines tz task = Except.ok dl ∧ x ∈ dl) ∨
    (∃ sl, start_lines tz task = Except.ok sl ∧ x ∈ sl) ∨
    (∃ stl, status_lines tz task = Except.ok stl ∧ x ∈ stl) ∨
    (∃ cl, created_lines tz task = Except.ok cl ∧ x ∈ cl) ∨
    (∃ ml, modified_lines tz task = Except.ok ml ∧ x ∈ ml) ∨
    x ∈ rrule_lines task ∨
    x ∈ url_lines task ∨
    x ∈ categories_lines task lists ∨
    x ∈ description_lines task notes ∨
    x ∈ postpone_lines task ∨
    x = ("END:VTODO") := by
  obtain ⟨dl, sl, stl, cl, ml, hdl, hsl, hstl, hcl, hml, hlines⟩ := convert_lines_decomp tz task lists notes lines h
  subst hlines
  simp only [List.mem_append, List.mem_cons, List.mem_singleton, List.not_mem_nil] at hx
  aesop

deriving instance DecidableEq for Except

/-! ### C2: end-to-end scenario A -/

/-- C2 counterexample: for the scenario-A task (`id = 42`, no optional
fields, `list_id = "7"` resolving to "Work") the mapper emits six lines,
not five: the resolved list name produces a `CATEGORIES:Work` line, so
the claimed five-line block (with no categories line) is not what the
code returns. -/
theorem scenario_a_counterexample :
    convert_task_to_vtodo_lines 0 { id := ("42"), list_id := some ("7") } [(("7"), ("Work"))] [] =
      Except.ok [("BEGIN:VTODO"), ("UID:rtm-42"), ("SUMMARY:Untitled Task"),
        ("STATUS:NEEDS-ACTION"), ("CATEGORIES:Work"), ("END:VTODO")] ∧
    convert_task_to_vtodo_lines 0 { id := ("42"), list_id := some ("7") } [(("7"), ("Work"))] [] ≠
      Except.ok [("BEGIN:VTODO"), ("UID:rtm-42"), ("SUMMARY:Untitled Task"),
        ("STATUS:NEEDS-ACTION"), ("END:VTODO")] := by
  constructor
  · rfl
  · decide

/-- C2 amended: the scenario-A block consists of exactly six lines — the
open marker, the derived identifier for rtm-42, the placeholder title,
the needs-action status, a categories line carrying the resolved list
name "Work", and the close marker — in that order, for every timezone
offset. -/
theorem scenario_a_block (tz : Int) :
    convert_task_to_vtodo_lines tz { id := ("42"), list_id := some ("7") } [(("7"), ("Work"))] [] =
      Except.ok [("BEGIN:VTODO"), ("UID:rtm-42"), ("SUMMARY:Untitled Task"),
        ("STATUS:NEEDS-ACTION"), ("CATEGORIES:Work"), ("END:VTODO")] := rfl

/-- Witness for C2's amended theorem at offset 0. -/
theorem scenario_a_block_witness :
    convert_task_to_vtodo_lines 0 { id := ("42"), list_id := some ("7") } [(("7"), ("Work"))] [] =
      Except.ok [("BEGIN:VTODO"), ("UID:rtm-42"), ("SUMMARY:Untitled Task"),
        ("STATUS:NEEDS-ACTION"), ("CATEGORIES:Work"), ("END:VTODO")] :=
  scenario_a_block 0

/-! ### C3: title line -/

/-- C3 counterexample: a task whose `name` field is present but equal to
the empty string gets an empty `SUMMARY:` line, not the placeholder:
`task.get('name', 'Untitled Task')` only falls back when the key is
absent. -/
theorem empty_name_no_placeholder :
    convert_task_to_vtodo_lines 0 { id := ("1"), name := some ("") } [] [] =
      Except.ok [("BEGIN:VTODO"), ("UID:rtm-1"), ("SUMMARY:"),
        ("STATUS:NEEDS-ACTION"), ("END:VTODO")] ∧
    ("SUMMARY:Untitled Task") ∉
      [("BEGIN:VTODO"), ("UID:rtm-1"), ("SUMMARY:"), ("STATUS:NEEDS-ACTION"), ("END:VTODO")] := by
  constructor
  · rfl
  · decide

/-- C3 amended: every successfully mapped block contains exactly one
title line `SUMMARY:` followed by the escaped name, where an absent
`name` (and only an absent one) falls back to the placeholder text
"Untitled Task"; a present-but-empty name yields an empty title. -/
theorem summary_line_always (tz : Int) (task : Task) (lists : List (String × String)) (notes : List (String × List Note)) (lines : List String)
    (h : convert_task_to_vtodo_lines tz task lists notes = Except.ok lines) :
    (("SUMMARY:") ++ escape_ical_text (task.name.getD ("Untitled Task"))) ∈ lines ∧
    ∀ r, (("SUMMARY:") ++ r) ∈ lines → r = escape_ical_text (task.name.getD ("Untitled Task")) := by
  obtain ⟨dl, sl, stl, cl, ml, hdl, hsl, hstl, hcl, hml, hlines⟩ := convert_lines_decomp tz task lists notes lines h
  constructor
  · subst hlines
    simp [List.mem_append]
  · intro r hr
    rcases mem_convert_lines_cases tz task lists notes lines h _ hr with
      h1 | h1 | h1 | h1 | h1 | h1 | h1 | h1 | h1 | h1 | h1 | h1 | h1 | h1 | h1 | h1
    · exact absurd h1 (tagged_ne_lit _ _ _ (by decide))
    · exact absurd h1 (tagged_ne_tagged _ _ _ _ (by decide) (by decide))
    · obtain ⟨p, hp⟩ := mem_related_shape task _ h1
      exact absurd hp (tagged_ne_tagged _ _ _ _ (by decide) (by decide))
    · exact tagged_inj _ _ _ h1
    · obtain ⟨p, hp⟩ := mem_priority_shape task _ h1
      exact absurd hp (tagged_ne_tagged _ _ _ _ (by decide) (by decide))
    · obtain ⟨dl2, hdl2, hmem⟩ := h1
      rcases mem_due_shape tz task dl2 _ hdl2 hmem with ⟨p, hp⟩ | ⟨p, hp⟩ <;>
        exact absurd hp (tagged_ne_tagged _ _ _ _ (by decide) (by decide))
    · obtain ⟨sl2, hsl2, hmem⟩ := h1
      rcases mem_start_shape tz task sl2 _ hsl2 hmem with ⟨p, hp⟩ | ⟨p, hp⟩ <;>
        exact absurd hp (tagged_ne_tagged _ _ _ _ (by decide) (by decide))
    · obtain ⟨stl2, hstl2, hmem⟩ := h1
      rcases mem_status_shape tz task stl2 _ hstl2 hmem with hp | hp | ⟨p, hp⟩
      · exact absurd hp (tagged_ne_lit _ _ _ (by decide))
      · exact absurd hp (tagged_ne_lit _ _ _ (by decide))
      · exact absurd hp (tagged_ne_tagged _ _ _ _ (by decide) (by decide))
    · obtain ⟨cl2, hcl2, hmem⟩ := h1
      obtain ⟨p, hp⟩ := mem_created_shape tz task cl2 _ hcl2 hmem
      exact absurd hp (tagged_ne_tagged _ _ _ _ (by decide) (by decide))
    · obtain ⟨ml2, hml2, hmem⟩ := h1
      obtain ⟨p, hp⟩ := mem_modified_shape tz task ml2 _ hml2 hmem
      exact absurd hp (tagged_ne_tagged _ _ _ _ (by decide) (by decide))
    · obtain ⟨p, hp⟩ := mem_rrule_shape task _ h1
      exact absurd hp (tagged_ne_tagged _ _ _ _ (by decide) (by decide))
    · obtain ⟨p, hp⟩ := mem_url_shape task _ h1
      exact absurd hp (tagged_ne_tagged _ _ _ _ (by decide) (by decide))
    · obtain ⟨p, hp⟩ := mem_categories_shape task lists _ h1
      exact absurd hp (tagged_ne_tagged _ _ _ _ (by decide) (by decide))
    · obtain ⟨p, hp⟩ := mem_description_shape task notes _ h1
      exact absurd hp (tagged_ne_tagged _ _ _ _ (by decide) (by decide))
    · obtain ⟨p, hp⟩ := mem_postpone_shape task _ h1
      exact absurd hp (tagged_ne_tagged _ _ _ _ (by decide) (by decide))
    · exact absurd h1 (tagged_ne_lit _ _ _ (by decide))

/-- Witness for C3's amended theorem at a concrete empty-named task. -/
theorem summary_line_always_witness :
    (("SUMMARY:") ++ escape_ical_text ((({ id := ("1"), name := some ("") } : Task)).name.getD ("Untitled Task"))) ∈
      [("BEGIN:VTODO"), ("UID:rtm-1"), ("SUMMARY:"), ("STATUS:NEEDS-ACTION"), ("END:VTODO")] ∧
    ∀ r, (("SUMMARY:") ++ r) ∈
        [("BEGIN:VTODO"), ("UID:rtm-1"), ("SUMMARY:"), ("STATUS:NEEDS-ACTION"), ("END:VTODO")] →
      r = escape_ical_text ((({ id := ("1"), name := some ("") } : Task)).name.getD ("Untitled Task")) :=
  summary_line_always 0 { id := ("1"), name := some ("") } [] []
    [("BEGIN:VTODO"), ("UID:rtm-1"), ("SUMMARY:"), ("STATUS:NEEDS-ACTION"), ("END:VTODO")] rfl

/-! ### C1: record-level granularity -/

/-- C1: when both `date_due` and `date_start` are present (non-zero), the
mapper computes a single record-level granularity decision — the OR of
the two per-date has-time flags — before emitting either field: both the
due and the start line are rendered from `format_datetime` at that shared
flag, with no `VALUE=DATE` qualifier in the date-time case and with the
qualifier in the date-only case, the due line immediately preceding the
start line.  Whenever the local year of the respective timestamp has four
digits, the date-time rendering has exactly 15 characters and the
date-only rendering exactly 8. -/
theorem granularity_consistent (tz : Int) (task : Task) (lists : List (String × String)) (notes : List (String × List Note)) (lines : List String) (dv sv : Int)
    (hdue : task.date_due = some dv) (hdv : dv ≠ 0)
    (hstart : task.date_start = some sv) (hsv : sv ≠ 0)
    (h : convert_task_to_vtodo_lines tz task lists notes = Except.ok lines) :
    ∃ ds ss pre post,
      format_datetime tz dv (use_time task) = Except.ok (some ds) ∧
      format_datetime tz sv (use_time task) = Except.ok (some ss) ∧
      lines = pre ++
        [if use_time task then ("DUE:") ++ ds else ("DUE;VALUE=DATE:") ++ ds] ++
        [if use_time task then ("DTSTART:") ++ ss else ("DTSTART;VALUE=DATE:") ++ ss] ++ post ∧
      (1000 ≤ localYear tz dv → localYear tz dv ≤ 9999 →
        ds.length = if use_time task then 15 else 8) ∧
      (1000 ≤ localYear tz sv → localYear tz sv ≤ 9999 →
        ss.length = if use_time task then 15 else 8) := by
  obtain ⟨dl, sl, stl, cl, ml, hdl, hsl, hstl, hcl, hml, hlines⟩ := convert_lines_decomp tz task lists notes lines h
  unfold due_lines at hdl
  simp only [hdue] at hdl
  rw [if_neg hdv] at hdl
  unfold start_lines at hsl
  simp only [hstart] at hsl
  rw [if_neg hsv] at hsl
  cases hfd : format_datetime tz dv (use_time task) with
  | error e => rw [hfd] at hdl; exact Except.noConfusion hdl
  | ok rd =>
    obtain ⟨ds, rfl, hdne, _, _⟩ := format_datetime_ok_of_ne_zero tz dv (use_time task) rd hdv hfd
    simp only [hfd] at hdl
    rw [if_neg hdne] at hdl
    cases hfs : format_datetime tz sv (use_time task) with
    | error e => rw [hfs] at hsl; exact Except.noConfusion hsl
    | ok rs =>
      obtain ⟨ss, rfl, hsne, _, _⟩ := format_datetime_ok_of_ne_zero tz sv (use_time task) rs hsv hfs
      simp only [hfs] at hsl
      rw [if_neg hsne] at hsl
      refine ⟨ds, ss,
        [("BEGIN:VTODO"), ("UID:rtm-") ++ task.id] ++ related_lines task ++
          [("SUMMARY:") ++ escape_ical_text (task.name.getD ("Untitled Task"))] ++
          priority_lines task,
        stl ++ cl ++ ml ++ rrule_lines task ++ url_lines task ++
          categories_lines task lists ++ description_lines task notes ++
          postpone_lines task ++ [("END:VTODO")], rfl, rfl, ?_, ?_, ?_⟩
      · rw [hlines, ← Except.ok.inj hdl, ← Except.ok.inj hsl]
        simp [List.append_assoc]
      · intro hy1 hy2
        obtain ⟨d8, t6, hf8, hf15, hl8, hl6, _, _⟩ := format_datetime_shape tz dv hdv hy1 hy2
        cases hu : use_time task with
        | true =>
          rw [hu] at hfd
          rw [hfd] at hf15
          have : ds = String.mk (d8 ++ ('T') :: t6) := by
            simpa using (Except.ok.inj hf15)
          simp [this, String.length, hl8, hl6]
        | false =>
          rw [hu] at hfd
          rw [hfd] at hf8
          have : ds = String.mk d8 := by
            simpa using (Except.ok.inj hf8)
          simp [this, String.length, hl8]
      · intro hy1 hy2
        obtain ⟨d8, t6, hf8, hf15, hl8, hl6, _, _⟩ := format_datetime_shape tz sv hsv hy1 hy2
        cases hu : use_time task with
        | true =>
          rw [hu] at hfs
          rw [hfs] at hf15
          have : ss = String.mk (d8 ++ ('T') :: t6) := by
            simpa using (Except.ok.inj hf15)
          simp [this, String.length, hl8, hl6]
        | false =>
          rw [hu] at hfs
          rw [hfs] at hf8
          have : ss = String.mk d8 := by
            simpa using (Except.ok.inj hf8)
          simp [this, String.length, hl8]

/-- Witness for C1 at a concrete task with both dates and no time flags. -/
theorem granularity_consistent_witness :
    ∃ ds ss pre post,
      format_datetime 0 1700000000000
          (use_time { id := ("9"), date_due := some 1700000000000, date_start := some 1700000005000 }) =
        Except.ok (some ds) ∧
      format_datetime 0 1700000005000
          (use_time { id := ("9"), date_due := some 1700000000000, date_start := some 1700000005000 }) =
        Except.ok (some ss) ∧
      [("BEGIN:VTODO"), ("UID:rtm-9"), ("SUMMARY:Untitled Task"), ("DUE;VALUE=DATE:20231114"),
          ("DTSTART;VALUE=DATE:20231114"), ("STATUS:NEEDS-ACTION"), ("END:VTODO")] = pre ++
        [if use_time { id := ("9"), date_due := some 1700000000000, date_start := some 1700000005000 } then
            ("DUE:") ++ ds else ("DUE;VALUE=DATE:") ++ ds] ++
        [if use_time { id := ("9"), date_due := some 1700000000000, date_start := some 1700000005000 } then
            ("DTSTART:") ++ ss else ("DTSTART;VALUE=DATE:") ++ ss] ++ post ∧
      (1000 ≤ localYear 0 1700000000000 → localYear 0 1700000000000 ≤ 9999 →
        ds.length = if use_time { id := ("9"), date_due := some 1700000000000, date_start := some 1700000005000 } then 15 else 8) ∧
      (1000 ≤ localYear 0 1700000005000 → localYear 0 1700000005000 ≤ 9999 →
        ss.length = if use_time { id := ("9"), date_due := some 1700000000000, date_start := some 1700000005000 } then 15 else 8) :=
  granularity_consistent 0 { id := ("9"), date_due := some 1700000000000, date_start := some 1700000005000 } [] []
    [("BEGIN:VTODO"), ("UID:rtm-9"), ("SUMMARY:Untitled Task"), ("DUE;VALUE=DATE:20231114"),
      ("DTSTART;VALUE=DATE:20231114"), ("STATUS:NEEDS-ACTION"), ("END:VTODO")]
    1700000000000 1700000005000 rfl (by decide) rfl (by decide) (by decide)

/-! ### C4: status and completion -/

/-- Any status or completion-timestamp line of a block can only have been
emitted by the status segment. -/
theorem status_mem_only_status_segment (tz : Int) (task : Task) (lists : List (String × String)) (notes : List (String × List Note)) (lines : List String) (x : String)
    (h : convert_task_to_vtodo_lines tz task lists notes = Except.ok lines)
    (hx : x ∈ lines)
    (hshape : x = ("STATUS:NEEDS-ACTION") ∨ x = ("STATUS:COMPLETED") ∨ ∃ r, x = ("COMPLETED:") ++ r) :
    ∃ stl, status_lines tz task = Except.ok stl ∧ x ∈ stl := by
  rcases mem_convert_lines_cases tz task lists notes lines h x hx with
    h1 | h1 | h1 | h1 | h1 | h1 | h1 | h1 | h1 | h1 | h1 | h1 | h1 | h1 | h1 | h1
  · rcases hshape with rfl | rfl | ⟨r, rfl⟩
    · exact absurd h1 (by decide)
    · exact absurd h1 (by decide)
    · exact absurd h1 (tagged_ne_lit _ _ _ (by decide))
  · rcases hshape with rfl | rfl | ⟨r, rfl⟩
    · exact absurd h1.symm (tagged_ne_lit _ _ _ (by decide))
    · exact absurd h1.symm (tagged_ne_lit _ _ _ (by decide))
    · exact absurd h1 (tagged_ne_tagged _ _ _ _ (by decide) (by decide))
  · obtain ⟨e, he⟩ := mem_related_shape task _ h1
    rcases hshape with rfl | rfl | ⟨r, rfl⟩
    · exact absurd he (Ne.symm (tagged_ne_lit _ _ _ (by decide)))
    · exact absurd he (Ne.symm (tagged_ne_lit _ _ _ (by decide)))
    · exact absurd he (tagged_ne_tagged _ _ _ _ (by decide) (by decide))
  · rcases hshape with rfl | rfl | ⟨r, rfl⟩
    · exact absurd h1.symm (tagged_ne_lit _ _ _ (by decide))
    · exact absurd h1.symm (tagged_ne_lit _ _ _ (by decide))
    · exact absurd h1 (tagged_ne_tagged _ _ _ _ (by decide) (by decide))
  · obtain ⟨e, he⟩ := mem_priority_shape task _ h1
    rcases hshape with rfl | rfl | ⟨r, rfl⟩
    · exact absurd he (Ne.symm (tagged_ne_lit _ _ _ (by decide)))
    · exact absurd he (Ne.symm (tagged_ne_lit _ _ _ (by decide)))
    · exact absurd he (tagged_ne_tagged _ _ _ _ (by decide) (by decide))
  · obtain ⟨dl2, hdl2, hmem⟩ := h1
    rcases mem_due_shape tz task dl2 _ hdl2 hmem with ⟨e, he⟩ | ⟨e, he⟩ <;>
      rcases hshape with rfl | rfl | ⟨r, rfl⟩
    · exact absurd he (Ne.symm (tagged_ne_lit _ _ _ (by decide)))
    · exact absurd he (Ne.symm (tagged_ne_lit _ _ _ (by decide)))
    · exact absurd he (tagged_ne_tagged _ _ _ _ (by decide) (by decide))
    · exact absurd he (Ne.symm (tagged_ne_lit _ _ _ (by decide)))
    · exact absurd he (Ne.symm (tagged_ne_lit _ _ _ (by decide)))
    · exact absurd he (tagged_ne_tagged _ _ _ _ (by decide) (by decide))
  · obtain ⟨sl2, hsl2, hmem⟩ := h1
    rcases mem_start_shape tz task sl2 _ hsl2 hmem with ⟨e, he⟩ | ⟨e, he⟩ <;>
      rcases hshape with rfl | rfl | ⟨r, rfl⟩
    · exact absurd he (Ne.symm (tagged_ne_lit _ _ _ (by decide)))
    · exact absurd he (Ne.symm (tagged_ne_lit _ _ _ (by decide)))
    · exact absurd he (tagged_ne_tagged _ _ _ _ (by decide) (by decide))
    · exact absurd he (Ne.symm (tagged_ne_lit _ _ _ (by decide)))
    · exact absurd he (Ne.symm (tagged_ne_lit _ _ _ (by decide)))
    · exact absurd he (tagged_ne_tagged _ _ _ _ (by decide) (by decide))
  · exact h1
  · obtain ⟨cl2, hcl2, hmem⟩ := h1
    obtain ⟨e, he⟩ := mem_created_shape tz task cl2 _ hcl2 hmem
    rcases hshape with rfl | rfl | ⟨r, rfl⟩
    · exact absurd he (Ne.symm (tagged_ne_lit _ _ _ (by decide)))
    · exact absurd he (Ne.symm (tagged_ne_lit _ _ _ (by decide)))
    · exact absurd he (tagged_ne_tagged _ _ _ _ (by decide) (by decide))
  · obtain ⟨ml2, hml2, hmem⟩ := h1
    obtain ⟨e, he⟩ := mem_modified_shape tz task ml2 _ hml2 hmem
    rcases hshape with rfl | rfl | ⟨r, rfl⟩
    · exact absurd he (Ne.symm (tagged_ne_lit _ _ _ (by decide)))
    · exact absurd he (Ne.symm (tagged_ne_lit _ _ _ (by decide)))
    · exact absurd he (tagged_ne_tagged _ _ _ _ (by decide) (by decide))
  · obtain ⟨e, he⟩ := mem_rrule_shape task _ h1
    rcases hshape with rfl | rfl | ⟨r, rfl⟩
    · exact absurd he (Ne.symm (tagged_ne_lit _ _ _ (by decide)))
    · exact absurd he (Ne.symm (tagged_ne_lit _ _ _ (by decide)))
    · exact absurd he (tagged_ne_tagged _ _ _ _ (by decide) (by decide))
  · obtain ⟨e, he⟩ := mem_url_shape task _ h1
    rcases hshape with rfl | rfl | ⟨r, rfl⟩
    · exact absurd he (Ne.symm (tagged_ne_lit _ _ _ (by decide)))
    · exact absurd he (Ne.symm (tagged_ne_lit _ _ _ (by decide)))
    · exact absurd he (tagged_ne_tagged _ _ _ _ (by decide) (by decide))
  · obtain ⟨e, he⟩ := mem_categories_shape task lists _ h1
    rcases hshape with rfl | rfl | ⟨r, rfl⟩
    · exact absurd he (Ne.symm (tagged_ne_lit _ _ _ (by decide)))
    · exact absurd he (Ne.symm (tagged_ne_lit _ _ _ (by decide)))
    · exact absurd he (tagged_ne_tagged _ _ _ _ (by decide) (by decide))
  · obtain ⟨e, he⟩ := mem_description_shape task notes _ h1
    rcases hshape with rfl | rfl | ⟨r, rfl⟩
    · exact absurd he (Ne.symm (tagged_ne_lit _ _ _ (by decide)))
    · exact absurd he (Ne.symm (tagged_ne_lit _ _ _ (by decide)))
    · exact absurd he (tagged_ne_tagged _ _ _ _ (by decide) (by decide))
  · obtain ⟨e, he⟩ := mem_postpone_shape task _ h1
    rcases hshape with rfl | rfl | ⟨r, rfl⟩
    · exact absurd he (Ne.symm (tagged_ne_lit _ _ _ (by decide)))
    · exact absurd he (Ne.symm (tagged_ne_lit _ _ _ (by decide)))
    · exact absurd he (tagged_ne_tagged _ _ _ _ (by decide) (by decide))
  · rcases hshape with rfl | rfl | ⟨r, rfl⟩
    · exact absurd h1 (by decide)
    · exact absurd h1 (by decide)
    · exact absurd h1 (tagged_ne_lit _ _ _ (by decide))

theorem status_lines_of_truthy (tz : Int) (task : Task) (v : Int)
    (hv : task.date_completed = some v) (h0 : ¬v = 0) (stl : List String)
    (h : status_lines tz task = Except.ok stl) :
    ∃ s, format_datetime tz v true = Except.ok (some s) ∧ ¬s = ("") ∧
      stl = [("STATUS:COMPLETED"), ("COMPLETED:") ++ s] := by
  unfold status_lines at h
  simp only [hv] at h
  rw [if_neg h0] at h
  cases hf : format_datetime tz v true with
  | error e => rw [hf] at h; exact Except.noConfusion h
  | ok r =>
    obtain ⟨s, rfl, hne, _, _⟩ := format_datetime_ok_of_ne_zero tz v true r h0 hf
    simp only [hf] at h
    rw [if_neg hne] at h
    exact ⟨s, rfl, hne, (Except.ok.inj h).symm⟩

theorem status_lines_of_falsy (tz : Int) (task : Task)
    (hfalse : truthyInt task.date_completed = false) (stl : List String)
    (h : status_lines tz task = Except.ok stl) : stl = [("STATUS:NEEDS-ACTION")] := by
  unfold status_lines at h
  cases hv : task.date_completed with
  | none => simp only [hv] at h; exact (Except.ok.inj h).symm
  | some v =>
    have h0 : v = 0 := by
      rw [hv] at hfalse
      simpa [truthyInt] using hfalse
    simp only [hv] at h
    rw [if_pos h0] at h
    exact (Except.ok.inj h).symm

/-- C4: every successfully mapped block realizes exactly one of two
mutually exclusive outcomes, keyed on a truthy (present and non-zero)
`date_completed`: either a completed-status line plus a completion
timestamp rendered with `has_time` forced `true` and no needs-action
line, or a needs-action line with no completed-status line and no
completion timestamp — never both, never neither. -/
theorem status_completion_exclusive (tz : Int) (task : Task) (lists : List (String × String)) (notes : List (String × List Note)) (lines : List String)
    (h : convert_task_to_vtodo_lines tz task lists notes = Except.ok lines) :
    (truthyInt task.date_completed = true →
      ("STATUS:COMPLETED") ∈ lines ∧
      (∃ v s, task.date_completed = some v ∧ format_datetime tz v true = Except.ok (some s) ∧
        (("COMPLETED:") ++ s) ∈ lines) ∧
      ("STATUS:NEEDS-ACTION") ∉ lines) ∧
    (truthyInt task.date_completed = false →
      ("STATUS:NEEDS-ACTION") ∈ lines ∧
      ("STATUS:COMPLETED") ∉ lines ∧
      ∀ s, (("COMPLETED:") ++ s) ∉ lines) := by
  obtain ⟨dl, sl, stl, cl, ml, hdl, hsl, hstl, hcl, hml, hlines⟩ := convert_lines_decomp tz task lists notes lines h
  constructor
  · intro ht
    cases hv : task.date_completed with
    | none => rw [hv] at ht; simp [truthyInt] at ht
    | some v =>
      have h0 : ¬v = 0 := by
        rw [hv] at ht
        simpa [truthyInt] using ht
      obtain ⟨s, hfmt, hne, hstl_eq⟩ := status_lines_of_truthy tz task v hv h0 stl hstl
      refine ⟨?_, ⟨v, s, rfl, hfmt, ?_⟩, ?_⟩
      · rw [hlines, hstl_eq]
        simp [List.mem_append]
      · rw [hlines, hstl_eq]
        simp [List.mem_append]
      · intro hmem
        obtain ⟨stl2, hstl2, hmem2⟩ :=
          status_mem_only_status_segment tz task lists notes lines _ h hmem (Or.inl rfl)
        have hsame : stl2 = stl := Except.ok.inj (hstl2.symm.trans hstl)
        rw [hsame, hstl_eq] at hmem2
        simp only [List.mem_cons, List.mem_singleton, List.not_mem_nil, or_false] at hmem2
        rcases hmem2 with h2 | h2
        · exact absurd h2 (by decide)
        · exact absurd h2 (Ne.symm (tagged_ne_lit _ _ _ (by decide)))
  · intro hfalse
    have hstl_eq := status_lines_of_falsy tz task hfalse stl hstl
    refine ⟨?_, ?_, ?_⟩
    · rw [hlines, hstl_eq]
      simp [List.mem_append]
    · intro hmem
      obtain ⟨stl2, hstl2, hmem2⟩ :=
        status_mem_only_status_segment tz task lists notes lines _ h hmem (Or.inr (Or.inl rfl))
      have hsame : stl2 = stl := Except.ok.inj (hstl2.symm.trans hstl)
      rw [hsame, hstl_eq] at hmem2
      simp at hmem2
    · intro s hmem
      obtain ⟨stl2, hstl2, hmem2⟩ :=
        status_mem_only_status_segment tz task lists notes lines _ h hmem (Or.inr (Or.inr ⟨s, rfl⟩))
      have hsame : stl2 = stl := Except.ok.inj (hstl2.symm.trans hstl)
      rw [hsame, hstl_eq] at hmem2
      simp only [List.mem_singleton] at hmem2
      exact absurd hmem2 (tagged_ne_lit _ _ _ (by decide))

/-- Witness for C4 at a concrete completed task. -/
theorem status_completion_exclusive_witness :
    (truthyInt (({ id := ("5"), date_completed := some 1700000000000 } : Task)).date_completed = true →
      ("STATUS:COMPLETED") ∈ [("BEGIN:VTODO"), ("UID:rtm-5"), ("SUMMARY:Untitled Task"),
        ("STATUS:COMPLETED"), ("COMPLETED:20231114T221320"), ("END:VTODO")] ∧
      (∃ v s, (({ id := ("5"), date_completed := some 1700000000000 } : Task)).date_completed = some v ∧
        format_datetime 0 v true = Except.ok (some s) ∧
        (("COMPLETED:") ++ s) ∈ [("BEGIN:VTODO"), ("UID:rtm-5"), ("SUMMARY:Untitled Task"),
          ("STATUS:COMPLETED"), ("COMPLETED:20231114T221320"), ("END:VTODO")]) ∧
      ("STATUS:NEEDS-ACTION") ∉ [("BEGIN:VTODO"), ("UID:rtm-5"), ("SUMMARY:Untitled Task"),
        ("STATUS:COMPLETED"), ("COMPLETED:20231114T221320"), ("END:VTODO")]) ∧
    (truthyInt (({ id := ("5"), date_completed := some 1700000000000 } : Task)).date_completed = false →
      ("STATUS:NEEDS-ACTION") ∈ [("BEGIN:VTODO"), ("UID:rtm-5"), ("SUMMARY:Untitled Task"),
        ("STATUS:COMPLETED"), ("COMPLETED:20231114T221320"), ("END:VTODO")] ∧
      ("STATUS:COMPLETED") ∉ [("BEGIN:VTODO"), ("UID:rtm-5"), ("SUMMARY:Untitled Task"),
        ("STATUS:COMPLETED"), ("COMPLETED:20231114T221320"), ("END:VTODO")] ∧
      ∀ s, (("COMPLETED:") ++ s) ∉ [("BEGIN:VTODO"), ("UID:rtm-5"), ("SUMMARY:Untitled Task"),
        ("STATUS:COMPLETED"), ("COMPLETED:20231114T221320"), ("END:VTODO")]) :=
  status_completion_exclusive 0 { id := ("5"), date_completed := some 1700000000000 } [] []
    [("BEGIN:VTODO"), ("UID:rtm-5"), ("SUMMARY:Untitled Task"),
      ("STATUS:COMPLETED"), ("COMPLETED:20231114T221320"), ("END:VTODO")] (by decide)

/-! ### C7: vendor-extension lines -/

/-- Any line beginning with `X-RTM-POSTPONE-COUNT:` or `X-RTM-SOURCE`
can only have been emitted by the postpone segment. -/
theorem xrtm_mem_only_postpone_segment (tz : Int) (task : Task) (lists : List (String × String)) (notes : List (String × List Note)) (lines : List String) (x : String)
    (h : convert_task_to_vtodo_lines tz task lists notes = Except.ok lines)
    (hx : x ∈ lines)
    (hshape : (∃ r, x = ("X-RTM-POSTPONE-COUNT:") ++ r) ∨ (∃ r, x = ("X-RTM-SOURCE") ++ r)) :
    x ∈ postpone_lines task := by
  rcases mem_convert_lines_cases tz task lists notes lines h x hx with
    h1 | h1 | h1 | h1 | h1 | h1 | h1 | h1 | h1 | h1 | h1 | h1 | h1 | h1 | h1 | h1
  · rcases hshape with ⟨r, rfl⟩ | ⟨r, rfl⟩ <;>
      exact absurd h1 (tagged_ne_lit _ _ _ (by decide))
  · rcases hshape with ⟨r, rfl⟩ | ⟨r, rfl⟩ <;>
      exact absurd h1 (tagged_ne_tagged _ _ _ _ (by decide) (by decide))
  · obtain ⟨e, he⟩ := mem_related_shape task _ h1
    rcases hshape with ⟨r, rfl⟩ | ⟨r, rfl⟩ <;>
      exact absurd he (tagged_ne_tagged _ _ _ _ (by decide) (by decide))
  · rcases hshape with ⟨r, rfl⟩ | ⟨r, rfl⟩ <;>
      exact absurd h1 (tagged_ne_tagged _ _ _ _ (by decide) (by decide))
  · obtain ⟨e, he⟩ := mem_priority_shape task _ h1
    rcases hshape with ⟨r, rfl⟩ | ⟨r, rfl⟩ <;>
      exact absurd he (tagged_ne_tagged _ _ _ _ (by decide) (by decide))
  · obtain ⟨dl2, hdl2, hmem⟩ := h1
    rcases mem_due_shape tz task dl2 _ hdl2 hmem with ⟨e, he⟩ | ⟨e, he⟩ <;>
      rcases hshape with ⟨r, rfl⟩ | ⟨r, rfl⟩ <;>
      exact absurd he (tagged_ne_tagged _ _ _ _ (by decide) (by decide))
  · obtain ⟨sl2, hsl2, hmem⟩ := h1
    rcases mem_start_shape tz task sl2 _ hsl2 hmem with ⟨e, he⟩ | ⟨e, he⟩ <;>
      rcases hshape with ⟨r, rfl⟩ | ⟨r, rfl⟩ <;>
      exact absurd he (tagged_ne_tagged _ _ _ _ (by decide) (by decide))
  · obtain ⟨stl2, hstl2, hmem⟩ := h1
    rcases mem_status_shape tz task stl2 _ hstl2 hmem with hp | hp | ⟨e, hp⟩ <;>
      rcases hshape with ⟨r, rfl⟩ | ⟨r, rfl⟩
    · exact absurd hp (tagged_ne_lit _ _ _ (by decide))
    · exact absurd hp (tagged_ne_lit _ _ _ (by decide))
    · exact absurd hp (tagged_ne_lit _ _ _ (by decide))
    · exact absurd hp (tagged_ne_lit _ _ _ (by decide))
    · exact absurd hp (tagged_ne_tagged _ _ _ _ (by decide) (by decide))
    · exact absurd hp (tagged_ne_tagged _ _ _ _ (by decide) (by decide))
  · obtain ⟨cl2, hcl2, hmem⟩ := h1
    obtain ⟨e, he⟩ := mem_created_shape tz task cl2 _ hcl2 hmem
    rcases hshape with ⟨r, rfl⟩ | ⟨r, rfl⟩ <;>
      exact absurd he (tagged_ne_tagged _ _ _ _ (by decide) (by decide))
  · obtain ⟨ml2, hml2, hmem⟩ := h1
    obtain ⟨e, he⟩ := mem_modified_shape tz task ml2 _ hml2 hmem
    rcases hshape with ⟨r, rfl⟩ | ⟨r, rfl⟩ <;>
      exact absurd he (tagged_ne_tagged _ _ _ _ (by decide) (by decide))
  · obtain ⟨e, he⟩ := mem_rrule_shape task _ h1
    rcases hshape with ⟨r, rfl⟩ | ⟨r, rfl⟩ <;>
      exact absurd he (tagged_ne_tagged _ _ _ _ (by decide) (by decide))
  · obtain ⟨e, he⟩ := mem_url_shape task _ h1
    rcases hshape with ⟨r, rfl⟩ | ⟨r, rfl⟩ <;>
      exact absurd he (tagged_ne_tagged _ _ _ _ (by decide) (by decide))
  · obtain ⟨e, he⟩ := mem_categories_shape task lists _ h1
    rcases hshape with ⟨r, rfl⟩ | ⟨r, rfl⟩ <;>
      exact absurd he (tagged_ne_tagged _ _ _ _ (by decide) (by decide))
  · obtain ⟨e, he⟩ := mem_description_shape task notes _ h1
    rcases hshape with ⟨r, rfl⟩ | ⟨r, rfl⟩ <;>
      exact absurd he (tagged_ne_tagged _ _ _ _ (by decide) (by decide))
  · exact h1
  · rcases hshape with ⟨r, rfl⟩ | ⟨r, rfl⟩ <;>
      exact absurd h1 (tagged_ne_lit _ _ _ (by decide))

theorem postpone_lines_of_truthy (task : Task) (v : Int)
    (hv : task.postponed = some v) (h0 : ¬v = 0) :
    postpone_lines task = [("X-RTM-POSTPONE-COUNT:") ++ toString v] := by
  unfold postpone_lines
  simp only [hv]
  rw [if_neg h0]

theorem postpone_lines_of_falsy (task : Task)
    (hfalse : truthyInt task.postponed = false) : postpone_lines task = [] := by
  unfold postpone_lines
  cases hv : task.postponed with
  | none => rfl
  | some v =>
    have h0 : v = 0 := by
      rw [hv] at hfalse
      simpa [truthyInt] using hfalse
    simp only [if_pos h0]

/-- C7 counterexample: a task with `postponed` present (value 0) and
`source` present ("iphone") produces a block with neither vendor
extension line: the code never reads the `source` field, and a zero
postpone count is falsy and skipped. -/
theorem source_field_ignored_counterexample :
    convert_task_to_vtodo_lines 0 { id := ("3"), postponed := some 0, source := some ("iphone") } [] [] =
      Except.ok [("BEGIN:VTODO"), ("UID:rtm-3"), ("SUMMARY:Untitled Task"),
        ("STATUS:NEEDS-ACTION"), ("END:VTODO")] ∧
    (({ id := ("3"), postponed := some 0, source := some ("iphone") } : Task)).source = some ("iphone") ∧
    (({ id := ("3"), postponed := some 0, source := some ("iphone") } : Task)).postponed = some 0 :=
  ⟨rfl, rfl, rfl⟩

/-- C7 amended: the mapped block contains the postpone-count vendor
extension line iff `postponed` is present with a truthy (non-zero)
value, and never contains any vendor-extension line for the `source`
field — the mapper ignores `source` entirely. -/
theorem vendor_extension_postpone_only (tz : Int) (task : Task) (lists : List (String × String)) (notes : List (String × List Note)) (lines : List String)
    (h : convert_task_to_vtodo_lines tz task lists notes = Except.ok lines) :
    (truthyInt task.postponed = true →
      ∃ v, task.postponed = some v ∧ (("X-RTM-POSTPONE-COUNT:") ++ toString v) ∈ lines) ∧
    (truthyInt task.postponed = false → ∀ r, (("X-RTM-POSTPONE-COUNT:") ++ r) ∉ lines) ∧
    (∀ r, (("X-RTM-SOURCE") ++ r) ∉ lines) := by
  obtain ⟨dl, sl, stl, cl, ml, hdl, hsl, hstl, hcl, hml, hlines⟩ := convert_lines_decomp tz task lists notes lines h
  refine ⟨?_, ?_, ?_⟩
  · intro ht
    cases hv : task.postponed with
    | none => rw [hv] at ht; simp [truthyInt] at ht
    | some v =>
      have h0 : ¬v = 0 := by
        rw [hv] at ht
        simpa [truthyInt] using ht
      refine ⟨v, rfl, ?_⟩
      rw [hlines, postpone_lines_of_truthy task v hv h0]
      simp [List.mem_append]
  · intro hfalse r hmem
    have hp := xrtm_mem_only_postpone_segment tz task lists notes lines _ h hmem (Or.inl ⟨r, rfl⟩)
    rw [postpone_lines_of_falsy task hfalse] at hp
    simp at hp
  · intro r hmem
    have hp := xrtm_mem_only_postpone_segment tz task lists notes lines _ h hmem (Or.inr ⟨r, rfl⟩)
    obtain ⟨e, he⟩ := mem_postpone_shape task _ hp
    exact absurd he (tagged_ne_tagged _ _ _ _ (by decide) (by decide))

/-- Witness for C7's amended theorem at a concrete postponed task. -/
theorem vendor_extension_postpone_only_witness :
    (truthyInt (({ id := ("4"), postponed := some 2 } : Task)).postponed = true →
      ∃ v, (({ id := ("4"), postponed := some 2 } : Task)).postponed = some v ∧
        (("X-RTM-POSTPONE-COUNT:") ++ toString v) ∈ [("BEGIN:VTODO"), ("UID:rtm-4"),
          ("SUMMARY:Untitled Task"), ("STATUS:NEEDS-ACTION"), ("X-RTM-POSTPONE-COUNT:2"), ("END:VTODO")]) ∧
    (truthyInt (({ id := ("4"), postponed := some 2 } : Task)).postponed = false →
      ∀ r, (("X-RTM-POSTPONE-COUNT:") ++ r) ∉ [("BEGIN:VTODO"), ("UID:rtm-4"),
        ("SUMMARY:Untitled Task"), ("STATUS:NEEDS-ACTION"), ("X-RTM-POSTPONE-COUNT:2"), ("END:VTODO")]) ∧
    (∀ r, (("X-RTM-SOURCE") ++ r) ∉ [("BEGIN:VTODO"), ("UID:rtm-4"),
      ("SUMMARY:Untitled Task"), ("STATUS:NEEDS-ACTION"), ("X-RTM-POSTPONE-COUNT:2"), ("END:VTODO")]) :=
  vendor_extension_postpone_only 0 { id := ("4"), postponed := some 2 } [] []
    [("BEGIN:VTODO"), ("UID:rtm-4"), ("SUMMARY:Untitled Task"), ("STATUS:NEEDS-ACTION"),
      ("X-RTM-POSTPONE-COUNT:2"), ("END:VTODO")] rfl

/-! ### C5: filter composition -/

/-- C5: a task passes `should_include_task` iff it independently passes
all four configured clauses (allow-list, deny-list, incomplete-only,
completion-age), composed by logical AND; and the completion-age clause
never affects a task without a truthy completion date — the result is
independent of the cutoff for such tasks. -/
theorem should_include_and_composition :
    (∀ (tz : Int) (task : Task) (args : Args) (list_names : List (String × String)) (b : Bool),
      should_include_task tz task args list_names = Except.ok b →
      b = (passes_allow args (resolved_list_name task list_names) &&
        passes_deny args (resolved_list_name task list_names) &&
        passes_incomplete_filter args task &&
        passes_age tz args task)) ∧
    (∀ (tz : Int) (task : Task) (l e : Option (List String)) (i : Bool) (c₁ c₂ : Option Int)
      (list_names : List (String × String)),
      truthyInt task.date_completed = false →
      should_include_task tz task ⟨l, e, i, c₁⟩ list_names =
        should_include_task tz task ⟨l, e, i, c₂⟩ list_names) := by
  constructor
  · intro tz task args list_names b h
    simp only [should_include_task] at h
    repeat' split at h
    all_goals first
      | exact Except.noConfusion h
      | (rw [← Except.ok.inj h]
         simp_all [passes_allow, passes_deny, passes_incomplete_filter, passes_age, truthyInt]
         try (cases h1 : truthyStrList args.lists <;>
           cases h2 : truthyStrList args.exclude_lists <;>
           cases h3 : args.incomplete_only <;>
           cases h4 : args.skip_completed_before <;>
           cases h5 : task.date_completed <;>
           simp_all))
  · intro tz task l e i c₁ c₂ list_names hfalse
    simp [should_include_task, hfalse]

/-- Witness for C5: a task that passes the allow-list, deny-list and
completion-status clauses but fails the completion-age clause is
excluded; and an incomplete task's inclusion is cutoff-independent. -/
theorem should_include_and_composition_witness :
    should_include_task 0 { id := ("8"), list_id := some ("1"), date_completed := some 1000000 }
      { lists := some [("Personal")], skip_completed_before := some 1700000000 }
      [(("1"), ("Personal"))] = Except.ok false ∧
    false = (passes_allow { lists := some [("Personal")], skip_completed_before := some 1700000000 }
        (resolved_list_name { id := ("8"), list_id := some ("1"), date_completed := some 1000000 }
          [(("1"), ("Personal"))]) &&
      passes_deny { lists := some [("Personal")], skip_completed_before := some 1700000000 }
        (resolved_list_name { id := ("8"), list_id := some ("1"), date_completed := some 1000000 }
          [(("1"), ("Personal"))]) &&
      passes_incomplete_filter { lists := some [("Personal")], skip_completed_before := some 1700000000 }
        { id := ("8"), list_id := some ("1"), date_completed := some 1000000 } &&
      passes_age 0 { lists := some [("Personal")], skip_completed_before := some 1700000000 }
        { id := ("8"), list_id := some ("1"), date_completed := some 1000000 }) ∧
    passes_allow { lists := some [("Personal")], skip_completed_before := some 1700000000 }
      (resolved_list_name { id := ("8"), list_id := some ("1"), date_completed := some 1000000 }
        [(("1"), ("Personal"))]) = true ∧
    passes_deny { lists := some [("Personal")], skip_completed_before := some 1700000000 }
      (resolved_list_name { id := ("8"), list_id := some ("1"), date_completed := some 1000000 }
        [(("1"), ("Personal"))]) = true ∧
    passes_incomplete_filter { lists := some [("Personal")], skip_completed_before := some 1700000000 }
      { id := ("8"), list_id := some ("1"), date_completed := some 1000000 } = true ∧
    passes_age 0 { lists := some [("Personal")], skip_completed_before := some 1700000000 }
      { id := ("8"), list_id := some ("1"), date_completed := some 1000000 } = false ∧
    should_include_task 0 { id := ("6") } ⟨none, none, false, some 999⟩ [] =
      should_include_task 0 { id := ("6") } ⟨none, none, false, some 5⟩ [] :=
  ⟨rfl,
    should_include_and_composition.1 0
      { id := ("8"), list_id := some ("1"), date_completed := some 1000000 }
      { lists := some [("Personal")], skip_completed_before := some 1700000000 }
      [(("1"), ("Personal"))] false rfl,
    by decide, by decide, by decide, by decide,
    should_include_and_composition.2 0 { id := ("6") } none none false (some 999) (some 5) [] rfl⟩

/-! ### C6: stable partition by list id -/

theorem lookupGroup_appendGroup (gs : List (String × List Task)) (k : String) (t : Task) (k' : String) :
    lookupGroup (appendGroup gs k t) k' =
      if k = k' then lookupGroup gs k' ++ [t] else lookupGroup gs k' := by
  induction gs with
  | nil =>
    by_cases h : k = k' <;> simp [appendGroup, lookupGroup, h]
  | cons p rest ih =>
    obtain ⟨k2, ts⟩ := p
    by_cases h2 : k2 = k <;> by_cases h3 : k2 = k' <;> by_cases h4 : k = k' <;>
      simp_all [appendGroup, lookupGroup]

theorem filter_and_group_lookup (tz : Int) (args : Args) (list_names : List (String × String)) :
    ∀ (ts : List Task) (acc : List (String × List Task)) (n : Nat) (gs : List (String × List Task)) (m : Nat),
      filter_and_group tz args list_names ts acc n = Except.ok (gs, m) →
      ∀ k, lookupGroup gs k = lookupGroup acc k ++
        ts.filter (fun t => includedB tz args list_names t && (t.list_id.getD ("") == k)) := by
  intro ts
  induction ts with
  | nil =>
    intro acc n gs m h k
    unfold filter_and_group at h
    simp at h
    rw [← h.1]
    simp
  | cons t ts ih =>
    intro acc n gs m h k
    unfold filter_and_group at h
    cases hsi : should_include_task tz t args list_names with
    | error e => rw [hsi] at h; exact Except.noConfusion h
    | ok b =>
      simp only [hsi] at h
      cases b with
      | true =>
        have hrec := ih (appendGroup acc (t.list_id.getD ("")) t) n gs m h k
        rw [hrec, lookupGroup_appendGroup]
        by_cases hk : t.list_id.getD ("") = k
        · simp [List.filter_cons, includedB, hsi, hk]
        · simp [List.filter_cons, includedB, hsi, hk]
      | false =>
        have hrec := ih acc (n + 1) gs m h k
        rw [hrec]
        simp [List.filter_cons, includedB, hsi]

/-- C6: the filter-and-group loop is a stable partition of the included
tasks keyed by `str(task.get('list_id', ''))`: for every key, the group's
sequence is exactly the subsequence (in original input order) of included
tasks carrying that key — a task with a missing `list_id` lands in the
synthesized empty-string key's group and no task ever appears in a group
keyed differently from its own `list_id`. -/
theorem grouping_stable_partition (tz : Int) (args : Args) (list_names : List (String × String)) (ts : List Task) (gs : List (String × List Task)) (m : Nat)
    (h : filter_and_group tz args list_names ts [] 0 = Except.ok (gs, m)) :
    ∀ k, lookupGroup gs k =
        ts.filter (fun t => includedB tz args list_names t && (t.list_id.getD ("") == k)) ∧
      ∀ t ∈ lookupGroup gs k, t.list_id.getD ("") = k ∧ includedB tz args list_names t = true := by
  intro k
  have h1 := filter_and_group_lookup tz args list_names ts [] 0 gs m h k
  have h2 : lookupGroup gs k =
      ts.filter (fun t => includedB tz args list_names t && (t.list_id.getD ("") == k)) := by
    simpa [lookupGroup] using h1
  refine ⟨h2, ?_⟩
  intro t ht
  rw [h2] at ht
  obtain ⟨-, hb⟩ := List.mem_filter.1 ht
  rw [Bool.and_eq_true] at hb
  exact ⟨by simpa using hb.2, hb.1⟩

/-- Witness for C6 on a three-task run across two lists. -/
theorem grouping_stable_partition_witness :
    lookupGroup [(("1"), [({ id := ("a"), list_id := some ("1") } : Task),
        ({ id := ("c"), list_id := some ("1") } : Task)]),
      (("2"), [({ id := ("b"), list_id := some ("2") } : Task)])] ("1") =
      ([({ id := ("a"), list_id := some ("1") } : Task), ({ id := ("b"), list_id := some ("2") } : Task),
        ({ id := ("c"), list_id := some ("1") } : Task)]).filter
        (fun t => includedB 0 {} [] t && (t.list_id.getD ("") == ("1"))) ∧
    ∀ t ∈ lookupGroup [(("1"), [({ id := ("a"), list_id := some ("1") } : Task),
        ({ id := ("c"), list_id := some ("1") } : Task)]),
      (("2"), [({ id := ("b"), list_id := some ("2") } : Task)])] ("1"),
      t.list_id.getD ("") = ("1") ∧ includedB 0 {} [] t = true :=
  grouping_stable_partition 0 {} []
    [{ id := ("a"), list_id := some ("1") }, { id := ("b"), list_id := some ("2") },
      { id := ("c"), list_id := some ("1") }]
    [(("1"), [{ id := ("a"), list_id := some ("1") }, { id := ("c"), list_id := some ("1") }]),
      (("2"), [{ id := ("b"), list_id := some ("2") }])] 0 rfl ("1")

/-! ### C10: TUI and CLI assembly agree -/

theorem tui_filter_and_group_eq (tz : Int) (args : Args) (list_names : List (String × String)) :
    ∀ (ts : List Task) (acc : List (String × List Task)) (n : Nat),
      tui_filter_and_group tz args list_names ts acc n =
        filter_and_group tz args list_names ts acc n := by
  intro ts
  induction ts with
  | nil => intro acc n; rfl
  | cons t ts ih =>
    intro acc n
    unfold tui_filter_and_group filter_and_group
    cases hsi : should_include_task tz t args list_names with
    | error e => rfl
    | ok b =>
      cases b with
      | true => exact ih _ _
      | false => exact ih _ _

/-- C10: the TUI's conversion path (`action_convert`) and the CLI
pipeline (`main`) produce identical document text for every loaded
record set, filter configuration and timezone: both filter with the
shared `should_include_task`, group identically, convert with the shared
`convert_task_to_vtodo`, and assemble the same five header lines, blocks
and footer joined with CRLF. -/
theorem tui_build_documents_eq_cli (tz : Int) (args : Args) (list_names : List (String × String)) (notes_by_series : List (String × List Note)) (tasks : List Task) :
    tui_build_documents tz args list_names notes_by_series tasks =
      cli_build_documents tz args list_names notes_by_series tasks := by
  unfold tui_build_documents cli_build_documents
  rw [tui_filter_and_group_eq]

/-- Witness for C10 on a concrete one-task record set. -/
theorem tui_build_documents_eq_cli_witness :
    tui_build_documents 0 {} [(("1"), ("Work"))] [] [{ id := ("42"), list_id := some ("1") }] =
      cli_build_documents 0 {} [(("1"), ("Work"))] [] [{ id := ("42"), list_id := some ("1") }] :=
  tui_build_documents_eq_cli 0 {} [(("1"), ("Work"))] [] [{ id := ("42"), list_id := some ("1") }]

end RTM
